import Mathlib

/-!
Verification of the `local_calendar` Home Assistant integration
(`src/local_calendar/calendar.py`) against its natural-language
specification.

The Python module is shallowly embedded: datetimes are modelled as integer
minute counts (an aware datetime by its UTC instant, a naive datetime by
its wall-clock value), dates as integer day counts, and the collaborating
`ical` library (calendar codec and `EventStore` mutation engine) as record
fields of pure functions, since its code is an external dependency of the
repository.  Each entity coroutine of `calendar.py` becomes a pure
function threading the entity state explicitly; a raised exception becomes
an error value.
-/

namespace LocalCalendar

/-- The `PRODID` constant of `calendar.py`. -/
def PRODID : String := "-//homeassistant.io//local_calendar 1.0//EN"

/-- A start/end value carried by an `ical` `Event`: a calendar date (days),
a naive ("floating") datetime (local wall minutes), or a timezone-aware
datetime (UTC instant minutes). -/
inductive EventTime where
  | date (d : Int)
  | dtNaive (wall : Int)
  | dtAware (instant : Int)
deriving DecidableEq, Repr

/-- The `isinstance(value, datetime)` test on an `EventTime`. -/
def EventTime.isDatetime : EventTime → Bool
  | .date _ => false
  | .dtNaive _ => true
  | .dtAware _ => true

/-- The effect of `dt_util.as_local` on a datetime value, described by the wall
clock of the resulting local-zone datetime.  `offset` is the fixed
UTC-to-local zone offset in minutes: a naive datetime is assumed local and
kept, an aware datetime is converted by the offset.  (Never applied to a
`date` in the source; that branch returns a junk value.) -/
def asLocalWall (offset : Int) : EventTime → Int
  | .date d => d
  | .dtNaive w => w
  | .dtAware i => i + offset

/-- The recurrence rule object of the `ical` library, identified with its
RRULE string rendering (`Recur.as_rrule_str`). -/
structure Recur where
  rruleStr : String
deriving DecidableEq, Repr

/-- An `ical` `Event`, restricted to the fields `calendar.py` reads. -/
structure IcalEvent where
  summary : String
  dtstart : EventTime
  dtend : EventTime
  description : Option String := none
  uid : Option String := none
  rrule : Option Recur := none
  recurrence_id : Option String := none
  location : Option String := none
deriving DecidableEq, Repr

/-- A start/end value of a Home Assistant `CalendarEvent` as produced by
`_get_calendar_event`: a date, or a datetime in the caller's local zone
(described by its local wall clock). -/
inductive CalTime where
  | date (d : Int)
  | dtLocal (wall : Int)
deriving DecidableEq, Repr

/-- The Home Assistant `CalendarEvent` returned to callers. -/
structure CalendarEvent where
  summary : String
  start : CalTime
  end_ : CalTime
  description : Option String
  uid : Option String
  rrule : Option String
  recurrence_id : Option String
  location : Option String
deriving DecidableEq, Repr

/-- The function `_get_calendar_event` of `calendar.py`.  If both bounds are datetimes
they are converted with `dt_util.as_local` and a nonpositive duration is
forced to 30 minutes; otherwise (both dates) a negative duration is forced
to 1 day.  A mixed date/datetime pair makes the source's subtraction raise
`TypeError`, modelled as `none`. -/
def get_calendar_event (offset : Int) (event : IcalEvent) : Option CalendarEvent :=
  if event.dtstart.isDatetime && event.dtend.isDatetime then
    let start := asLocalWall offset event.dtstart
    let endw0 := asLocalWall offset event.dtend
    let endw := if endw0 - start ≤ 0 then start + 30 else endw0
    some { summary := event.summary
           start := .dtLocal start
           end_ := .dtLocal endw
           description := event.description
           uid := event.uid
           rrule := event.rrule.map Recur.rruleStr
           recurrence_id := event.recurrence_id
           location := event.location }
  else
    match event.dtstart, event.dtend with
    | .date ds, .date de0 =>
        let de := if de0 - ds < 0 then ds + 1 else de0
        some { summary := event.summary
               start := .date ds
               end_ := .date de
               description := event.description
               uid := event.uid
               rrule := event.rrule.map Recur.rruleStr
               recurrence_id := event.recurrence_id
               location := event.location }
    | _, _ => none

/-- A value of the `start`/`end` keys of the Home Assistant event
dictionary handed to `_parse_event` (`None`, a date, or a datetime). -/
inductive FieldValue where
  | absent
  | date (d : Int)
  | dtNaive (wall : Int)
  | dtAware (instant : Int)
deriving DecidableEq, Repr

/-- The event dictionary handed to `async_create_event` /
`async_update_event`, restricted to the fields `_parse_event` touches. -/
structure EventDict where
  summary : String
  dtstart : FieldValue
  dtend : FieldValue
  rrule : Option String := none
deriving DecidableEq, Repr

/-- The tzinfo-stripping step of `_parse_event`: a timezone-aware datetime
becomes `dt_util.as_local(value).replace(tzinfo=None)`, i.e. a naive
datetime at the local wall clock; every other value is untouched. -/
def coerce_floating (offset : Int) : FieldValue → FieldValue
  | .dtAware i => .dtNaive (i + offset)
  | v => v

/-- Modelled from the spec: the `ical` `Event` constructor (external
dependency) as §4.2 describes it — a missing bound or a date-only bound
mixed with a date-time bound fails with a `ValidationError`; otherwise the
event carries the given fields. -/
def event_from_dict (d : EventDict) : Except Unit IcalEvent :=
  match d.dtstart, d.dtend with
  | .date ds, .date de =>
      .ok { summary := d.summary, dtstart := .date ds, dtend := .date de,
            rrule := d.rrule.map Recur.mk }
  | .dtNaive ws, .dtNaive we =>
      .ok { summary := d.summary, dtstart := .dtNaive ws, dtend := .dtNaive we,
            rrule := d.rrule.map Recur.mk }
  | .dtNaive ws, .dtAware ie =>
      .ok { summary := d.summary, dtstart := .dtNaive ws, dtend := .dtAware ie,
            rrule := d.rrule.map Recur.mk }
  | .dtAware is_, .dtNaive we =>
      .ok { summary := d.summary, dtstart := .dtAware is_, dtend := .dtNaive we,
            rrule := d.rrule.map Recur.mk }
  | .dtAware is_, .dtAware ie =>
      .ok { summary := d.summary, dtstart := .dtAware is_, dtend := .dtAware ie,
            rrule := d.rrule.map Recur.mk }
  | _, _ => .error ()

/-- The function `_parse_event` of `calendar.py`: convert the `rrule` string to a
`Recur`, strip the timezone from aware `start`/`end` datetimes after
localizing them, then construct the `ical` `Event` (a construction
failure is re-raised as `vol.Invalid`, the `.error` case here). -/
def parse_event (offset : Int) (event : EventDict) : Except Unit IcalEvent :=
  let event1 := { event with dtstart := coerce_floating offset event.dtstart,
                             dtend := coerce_floating offset event.dtend }
  event_from_dict event1

/-- The `ical` `Calendar` aggregate: its serialisation product identifier
and its set of stored events. -/
structure Calendar where
  prodid : String
  events : List IcalEvent
deriving DecidableEq, Repr

/-- The `Range` enum of `ical.types`. -/
inductive RangeV where
  | none
  | thisAndFuture
deriving DecidableEq, Repr

/-- The collaborating `ical` library functions that `calendar.py` calls,
as pure functions: the ICS codec (`IcsCalendarStream`) and the
`EventStore` mutation engine.  The store operations act on the aggregate's
event set (per §3 the product identifier is serialisation-only metadata
the mutation engine never touches) and return an `EventStoreError`
message on failure, leaving the aggregate unchanged (§4.4: each operation
is atomic). -/
structure IcalLib where
  calendar_to_ics : Calendar → String
  calendar_from_ics : String → Except Unit Calendar
  store_add : List IcalEvent → IcalEvent → Except String (List IcalEvent)
  store_delete : List IcalEvent → String → Option String → RangeV →
      Except String (List IcalEvent)
  store_edit : List IcalEvent → String → IcalEvent → Option String → RangeV →
      Except String (List IcalEvent)

/-- The state of a `LocalCalendarEntity`: the in-memory aggregate and the
content last handed to the persistence collaborator
(`LocalCalendarStore.async_store`), `none` before any store. -/
structure LocalEntityState where
  calendar : Calendar
  persisted : Option String
deriving DecidableEq, Repr

/-- A raised `HomeAssistantError` (or `vol.Invalid` / bare
`EventStoreError`), with its message. -/
inductive RaisedError where
  | homeAssistantError (msg : String)
  | volInvalid
  | eventStoreError (msg : String)
deriving DecidableEq, Repr

/-- The result of an entity mutation coroutine: the entity state after the
call, and the exception it raised, if any (`none` on normal return). -/
abbrev MutResult := LocalEntityState × Option RaisedError

/-- The method `_async_store` of `ReadOnlyLocalCalendarEntity`: serialise the whole
aggregate to ICS text and hand it to the persistence collaborator. -/
def async_store_step (lib : IcalLib) (s : LocalEntityState) : LocalEntityState :=
  { s with persisted := some (lib.calendar_to_ics s.calendar) }

/-- The range coercion shared by `async_delete_event` and
`async_update_event`: the value is `Range.THIS_AND_FUTURE` exactly when
the incoming string equals that enum member (string-valued in `ical`),
and `Range.NONE` otherwise. -/
def range_from_arg (thisAndFutureStr : String) (recurrence_range : Option String) :
    RangeV :=
  if recurrence_range = some thisAndFutureStr then RangeV.thisAndFuture
  else RangeV.none

/-- The method `LocalCalendarEntity.async_create_event`: parse the input dictionary,
`EventStore(...).add` the event (errors propagate unwrapped, and §4.4's
atomic store leaves the aggregate as it was), then serialise and
persist. -/
def async_create_event (lib : IcalLib) (offset : Int) (kwargs : EventDict)
    (s : LocalEntityState) : MutResult :=
  match parse_event offset kwargs with
  | .error _ => (s, some .volInvalid)
  | .ok event =>
    match lib.store_add s.calendar.events event with
    | .error e => (s, some (.eventStoreError e))
    | .ok evs =>
        (async_store_step lib { s with calendar := { s.calendar with events := evs } },
         none)

/-- The method `LocalCalendarEntity.async_delete_event`: coerce the range argument,
`EventStore(...).delete` (an `EventStoreError` is wrapped in a
`HomeAssistantError` and re-raised before any store), then serialise and
persist. -/
def async_delete_event (lib : IcalLib) (thisAndFutureStr : String) (uid : String)
    (recurrence_id : Option String) (recurrence_range : Option String)
    (s : LocalEntityState) : MutResult :=
  let range_value := range_from_arg thisAndFutureStr recurrence_range
  match lib.store_delete s.calendar.events uid recurrence_id range_value with
  | .error err => (s, some (.homeAssistantError ("Error while deleting event: " ++ err)))
  | .ok evs =>
      (async_store_step lib { s with calendar := { s.calendar with events := evs } },
       none)

/-- The method `LocalCalendarEntity.async_update_event`: parse the replacement event,
coerce the range argument, `EventStore(...).edit` (an `EventStoreError` is
wrapped in a `HomeAssistantError` and re-raised before any store), then
serialise and persist. -/
def async_update_event (lib : IcalLib) (offset : Int) (thisAndFutureStr : String)
    (uid : String) (event : EventDict) (recurrence_id : Option String)
    (recurrence_range : Option String) (s : LocalEntityState) : MutResult :=
  match parse_event offset event with
  | .error _ => (s, some .volInvalid)
  | .ok new_event =>
    let range_value := range_from_arg thisAndFutureStr recurrence_range
    match lib.store_edit s.calendar.events uid new_event recurrence_id range_value with
    | .error err => (s, some (.homeAssistantError ("Error while updating event: " ++ err)))
    | .ok evs =>
        (async_store_step lib { s with calendar := { s.calendar with events := evs } },
         none)

/-- The state of a `RemoteCalendarEntity`: the stored conditional-fetch
entity tag, the in-memory aggregate (`None` until the first successful
refresh), and the content last handed to the persistence collaborator. -/
structure RemoteEntityState where
  etag : Option String
  calendar : Option Calendar
  persisted : Option String
deriving DecidableEq, Repr

/-- An HTTP response as `httpx` hands it to `_fetch_calendar_and_update`:
its status code, its `ETag` header if any, and its body text. -/
structure FetchResponse where
  status_code : Nat
  etagHeader : Option String
  text : String
deriving DecidableEq, Repr

/-- How one run of `_fetch_calendar_and_update` ended.  `notModified` is
the deliberate 304 fast path (a success); the `Error` outcomes are raised
exceptions: transport failure or cancellation at the `get` await,
`raise_for_status` on a non-2xx status, `CalendarParseError` from the
codec, or a failure/cancellation at the persistence await. -/
inductive FetchOutcome where
  | success
  | notModified
  | transportError
  | httpStatusError
  | parseError
  | storeError
deriving DecidableEq, Repr

/-- Whether the outcome is a raised exception (`notModified` is a normal
return, not an error). -/
def FetchOutcome.isError : FetchOutcome → Bool
  | .success => false
  | .notModified => false
  | _ => true

/-- The method `RemoteCalendarEntity._fetch_calendar_and_update`.  Here `response` is the
transport collaborator's answer (`none` models a raised transport error,
timeout or cancellation at the `get` await); `store_ok` says whether the
persistence await completes.  Per `httpx`, `raise_for_status` raises
exactly on a non-2xx status.  The source assigns `self._etag` before
parsing and `self._calendar` before persisting, which this model follows
step by step. -/
def fetch_calendar_and_update (lib : IcalLib) (response : Option FetchResponse)
    (store_ok : Bool) (s : RemoteEntityState) : RemoteEntityState × FetchOutcome :=
  match response with
  | Option.none => (s, .transportError)
  | some res =>
    if res.status_code = 304 then (s, .notModified)
    else if 200 ≤ res.status_code ∧ res.status_code < 300 then
      let s1 := { s with etag := res.etagHeader }
      match lib.calendar_from_ics res.text with
      | .error _ => (s1, .parseError)
      | .ok cal0 =>
        let cal := { cal0 with prodid := PRODID }
        let content := lib.calendar_to_ics cal
        let s2 := { s1 with calendar := some cal }
        if store_ok then ({ s2 with persisted := some content }, .success)
        else (s2, .storeError)
    else (s, .httpStatusError)

/-- The local branch of `async_setup_entry`: load the stored ICS text,
parse it into a `Calendar`, and stamp `PRODID` on the aggregate. -/
def setup_local_calendar (lib : IcalLib) (ics : String) : Except Unit Calendar :=
  match lib.calendar_from_ics ics with
  | .error e => .error e
  | .ok cal => .ok { cal with prodid := PRODID }

/-! ## Equation lemmas for `_get_calendar_event` -/

/-- Equation lemma: `_get_calendar_event` on a date-only event takes the date branch: the
1-day correction fires exactly when the duration is negative. -/
theorem get_calendar_event_dates (offset ds de : Int) (ev : IcalEvent)
    (hs : ev.dtstart = .date ds) (he : ev.dtend = .date de) :
    get_calendar_event offset ev =
      some { summary := ev.summary
             start := .date ds
             end_ := .date (if de - ds < 0 then ds + 1 else de)
             description := ev.description
             uid := ev.uid
             rrule := ev.rrule.map Recur.rruleStr
             recurrence_id := ev.recurrence_id
             location := ev.location } := by
  simp [get_calendar_event, hs, he, EventTime.isDatetime]

/-- Equation lemma: `_get_calendar_event` on an event whose two bounds are datetimes takes
the datetime branch: both bounds go through `dt_util.as_local`, and the
30-minute correction fires exactly when the localised duration is
nonpositive. -/
theorem get_calendar_event_datetimes (offset : Int) (ev : IcalEvent)
    (hs : ev.dtstart.isDatetime = true) (he : ev.dtend.isDatetime = true) :
    get_calendar_event offset ev =
      some { summary := ev.summary
             start := .dtLocal (asLocalWall offset ev.dtstart)
             end_ := .dtLocal
               (if asLocalWall offset ev.dtend - asLocalWall offset ev.dtstart ≤ 0 then
                  asLocalWall offset ev.dtstart + 30
                else asLocalWall offset ev.dtend)
             description := ev.description
             uid := ev.uid
             rrule := ev.rrule.map Recur.rruleStr
             recurrence_id := ev.recurrence_id
             location := ev.location } := by
  simp [get_calendar_event, hs, he]

/-! ## Claims -/

/-- C1, as stated, is false: a date-only event whose end equals its start
(here both day 0) is returned with `end = start`, not `end = start + 1
day`, because the date branch of `_get_calendar_event` corrects only a
strictly negative duration (`< timedelta(days=0)`). -/
theorem C1_counterexample :
    ¬ ((get_calendar_event 0
          { summary := "all-day", dtstart := .date 0, dtend := .date 0 }).map
        CalendarEvent.end_ = some (CalTime.date 1)) := by
  decide

/-- C1 (amended): for every date-only event, a query returns an occurrence
whose end is forced to `start + 1 day` exactly when the stored end is
strictly before the start; an end equal to or after the start is returned
unchanged (so `end == start` stays a zero-duration occurrence). -/
theorem C1_amended_date_normalization (offset ds de : Int) (ev : IcalEvent)
    (hs : ev.dtstart = .date ds) (he : ev.dtend = .date de) :
    ∃ ce, get_calendar_event offset ev = some ce ∧ ce.start = .date ds ∧
      (de < ds → ce.end_ = .date (ds + 1)) ∧ (ds ≤ de → ce.end_ = .date de) := by
  refine ⟨_, get_calendar_event_dates offset ds de ev hs he, rfl, ?_, ?_⟩
  · intro h
    simp only [show de - ds < 0 by omega, if_true]
  · intro h
    simp only [show ¬ de - ds < 0 by omega, if_false]

/-- Witness for the amended C1 at a concrete input (start day 5, end day
3, a strictly negative duration). -/
theorem C1_amended_witness :
    ∃ ce,
      get_calendar_event 0
          { summary := "w", dtstart := .date 5, dtend := .date 3 } = some ce ∧
      ce.start = .date 5 ∧
      ((3 : Int) < 5 → ce.end_ = .date (5 + 1)) ∧
      ((5 : Int) ≤ 3 → ce.end_ = .date 3) :=
  C1_amended_date_normalization 0 5 3
    { summary := "w", dtstart := .date 5, dtend := .date 3 } rfl rfl

/-- C3: an occurrence with date-time bounds is returned with both bounds
converted to the caller's local zone; when the converted end is at or
before the converted start the returned end is `start + 30` minutes, and
otherwise both bounds are returned exactly as converted. -/
theorem C3_local_zone_normalization (offset : Int) (ev : IcalEvent)
    (hs : ev.dtstart.isDatetime = true) (he : ev.dtend.isDatetime = true) :
    ∃ ce, get_calendar_event offset ev = some ce ∧
      ce.start = .dtLocal (asLocalWall offset ev.dtstart) ∧
      (asLocalWall offset ev.dtend ≤ asLocalWall offset ev.dtstart →
        ce.end_ = .dtLocal (asLocalWall offset ev.dtstart + 30)) ∧
      (asLocalWall offset ev.dtstart < asLocalWall offset ev.dtend →
        ce.end_ = .dtLocal (asLocalWall offset ev.dtend)) := by
  refine ⟨_, get_calendar_event_datetimes offset ev hs he, rfl, ?_, ?_⟩
  · intro h
    simp only
      [show asLocalWall offset ev.dtend - asLocalWall offset ev.dtstart ≤ 0 by omega,
       if_true]
  · intro h
    simp only
      [show ¬ asLocalWall offset ev.dtend - asLocalWall offset ev.dtstart ≤ 0 by omega,
       if_false]

/-- Witness for C3 at a concrete input: a timezone-aware event with
`end == start` (instant 100), offset 60 minutes. -/
theorem C3_witness :
    ∃ ce,
      get_calendar_event 60
          { summary := "m", dtstart := EventTime.dtAware 100,
            dtend := EventTime.dtAware 100 } = some ce ∧
      ce.start = .dtLocal (asLocalWall 60 (EventTime.dtAware 100)) ∧
      (asLocalWall 60 (EventTime.dtAware 100) ≤ asLocalWall 60 (EventTime.dtAware 100) →
        ce.end_ = .dtLocal (asLocalWall 60 (EventTime.dtAware 100) + 30)) ∧
      (asLocalWall 60 (EventTime.dtAware 100) < asLocalWall 60 (EventTime.dtAware 100) →
        ce.end_ = .dtLocal (asLocalWall 60 (EventTime.dtAware 100))) :=
  C3_local_zone_normalization 60
    { summary := "m", dtstart := EventTime.dtAware 100,
      dtend := EventTime.dtAware 100 } rfl rfl

/-! ## Concrete fixtures used to instantiate witnesses -/

/-- A concrete aggregate fixture. -/
def sampleCalendar : Calendar :=
  { prodid := "-//example//EN", events := [] }

/-- A concrete local-entity state fixture. -/
def sampleLocalState : LocalEntityState :=
  { calendar := sampleCalendar, persisted := some "old-ics" }

/-- A concrete event dictionary with naive datetime bounds. -/
def sampleDict : EventDict :=
  { summary := "s", dtstart := .dtNaive 0, dtend := .dtNaive 30 }

/-- A concrete library instance whose mutation engine always fails and
whose codec rejects every input. -/
def failingStoreLib : IcalLib :=
  { calendar_to_ics := fun _ => "ics-out"
    calendar_from_ics := fun _ => .error ()
    store_add := fun _ _ => .error "dup"
    store_delete := fun _ _ _ _ => .error "boom"
    store_edit := fun _ _ _ _ _ => .error "boom" }

/-- A concrete library instance whose operations all succeed. -/
def okLib : IcalLib :=
  { calendar_to_ics := fun c => c.prodid
    calendar_from_ics := fun _ => .ok { prodid := "parsed", events := [] }
    store_add := fun evs ev => .ok (evs ++ [ev])
    store_delete := fun _ _ _ _ => .ok []
    store_edit := fun _ _ ev _ _ => .ok [ev] }

/-- C4: when the mutation engine raises an `EventStoreError` on a delete
or an update, the entity wraps it in a `HomeAssistantError` and raises it
synchronously, returning before `_async_store`: no serialisation happens
and the persisted calendar (and the state as a whole) is unchanged. -/
theorem C4_store_error_surfaced (lib : IcalLib) (offset : Int)
    (tfs uid : String) (rid rrange : Option String) (ed : EventDict)
    (s : LocalEntityState) (err : String) :
    (lib.store_delete s.calendar.events uid rid (range_from_arg tfs rrange) =
        .error err →
      async_delete_event lib tfs uid rid rrange s =
        (s, some (.homeAssistantError ("Error while deleting event: " ++ err)))) ∧
    (∀ nev, parse_event offset ed = .ok nev →
      lib.store_edit s.calendar.events uid nev rid (range_from_arg tfs rrange) =
          .error err →
      async_update_event lib offset tfs uid ed rid rrange s =
        (s, some (.homeAssistantError ("Error while updating event: " ++ err)))) := by
  constructor
  · intro h
    simp [async_delete_event, h]
  · intro nev hp h
    simp [async_update_event, hp, h]

/-- Witness for C4 at a concrete input: a delete against a mutation engine
that fails with message `boom`. -/
theorem C4_witness :
    async_delete_event failingStoreLib "T" "u" Option.none Option.none
        sampleLocalState =
      (sampleLocalState,
       some (.homeAssistantError ("Error while deleting event: " ++ "boom"))) :=
  (C4_store_error_surfaced failingStoreLib 0 "T" "u" Option.none Option.none
    sampleDict sampleLocalState "boom").1 rfl

/-- C7: every successful mutation (create, delete, update) reserialises
the whole aggregate and hands the text to the persistence collaborator
before returning: the final persisted content is the serialisation of the
updated aggregate, and no error is raised. -/
theorem C7_persist_after_mutation (lib : IcalLib) (offset : Int)
    (tfs uid : String) (rid rrange : Option String) (kwargs ed : EventDict)
    (s : LocalEntityState) :
    (∀ ev evs, parse_event offset kwargs = .ok ev →
      lib.store_add s.calendar.events ev = .ok evs →
      async_create_event lib offset kwargs s =
        ({ calendar := { s.calendar with events := evs }
           persisted := some (lib.calendar_to_ics { s.calendar with events := evs }) },
         none)) ∧
    (∀ evs,
      lib.store_delete s.calendar.events uid rid (range_from_arg tfs rrange) =
          .ok evs →
      async_delete_event lib tfs uid rid rrange s =
        ({ calendar := { s.calendar with events := evs }
           persisted := some (lib.calendar_to_ics { s.calendar with events := evs }) },
         none)) ∧
    (∀ nev evs, parse_event offset ed = .ok nev →
      lib.store_edit s.calendar.events uid nev rid (range_from_arg tfs rrange) =
          .ok evs →
      async_update_event lib offset tfs uid ed rid rrange s =
        ({ calendar := { s.calendar with events := evs }
           persisted := some (lib.calendar_to_ics { s.calendar with events := evs }) },
         none)) := by
  refine ⟨?_, ?_, ?_⟩
  · intro ev evs hp h
    simp [async_create_event, async_store_step, hp, h]
  · intro evs h
    simp [async_delete_event, async_store_step, h]
  · intro nev evs hp h
    simp [async_update_event, async_store_step, hp, h]

/-- Witness for C7 at a concrete input: a successful delete against
`okLib`, whose store empties the event list. -/
theorem C7_witness :
    async_delete_event okLib "T" "u" Option.none Option.none sampleLocalState =
      ({ calendar := { sampleLocalState.calendar with events := [] }
         persisted :=
           some (okLib.calendar_to_ics
             { sampleLocalState.calendar with events := [] }) },
       none) :=
  (C7_persist_after_mutation okLib 0 "T" "u" Option.none Option.none
    sampleDict sampleDict sampleLocalState).2.1 [] rfl

/-- C10: a `recurrence_range` argument that does not equal the
`THIS_AND_FUTURE` member of `Range` (including `None` and arbitrary
unsupported strings) is silently coerced to `Range.NONE`: delete and
update behave exactly as if no range had been passed, and no error is
raised on account of the range value itself. -/
theorem C10_unrecognized_range (tfs : String) (rrange : Option String)
    (h : rrange ≠ some tfs) :
    range_from_arg tfs rrange = RangeV.none ∧
    (∀ lib uid rid s, async_delete_event lib tfs uid rid rrange s =
        async_delete_event lib tfs uid rid Option.none s) ∧
    (∀ lib offset uid ed rid s,
        async_update_event lib offset tfs uid ed rid rrange s =
        async_update_event lib offset tfs uid ed rid Option.none s) := by
  have hr : range_from_arg tfs rrange = RangeV.none := by
    simp [range_from_arg, h]
  have hn : range_from_arg tfs Option.none = RangeV.none := by
    simp [range_from_arg]
  refine ⟨hr, ?_, ?_⟩
  · intro lib uid rid s
    simp only [async_delete_event, hr, hn]
  · intro lib offset uid ed rid s
    simp only [async_update_event, hr, hn]

/-- Witness for C10 at a concrete input: the unsupported range string
`EVERYTHING` is coerced to `Range.NONE` and the delete proceeds exactly as
with no range argument. -/
theorem C10_witness :
    range_from_arg "THIS_AND_FUTURE" (some "EVERYTHING") = RangeV.none ∧
    async_delete_event okLib "THIS_AND_FUTURE" "u" Option.none (some "EVERYTHING")
        sampleLocalState =
      async_delete_event okLib "THIS_AND_FUTURE" "u" Option.none Option.none
        sampleLocalState := by
  have h := C10_unrecognized_range "THIS_AND_FUTURE" (some "EVERYTHING") (by decide)
  exact ⟨h.1, h.2.1 okLib "u" Option.none sampleLocalState⟩

/-- A concrete last-good remote-entity state: no stored ETag, a held
aggregate, and a persisted copy. -/
def sampleRemoteState : RemoteEntityState :=
  { etag := Option.none, calendar := some sampleCalendar, persisted := some "old-ics" }

/-- A concrete 200 response carrying a fresh ETag. -/
def sampleOkResponse : FetchResponse :=
  { status_code := 200, etagHeader := some "etag-2", text := "BEGIN:VCALENDAR" }

/-- C5: a 304 (not modified) response makes the refresh return at once
with the whole entity state — aggregate, stored ETag and persisted
content — exactly as before, and the outcome is the non-error
`notModified` fast path. -/
theorem C5_not_modified_no_mutation (lib : IcalLib) (res : FetchResponse)
    (store_ok : Bool) (s : RemoteEntityState) (h : res.status_code = 304) :
    fetch_calendar_and_update lib (some res) store_ok s = (s, .notModified) ∧
    FetchOutcome.notModified.isError = false := by
  constructor
  · simp [fetch_calendar_and_update, h]
  · rfl

/-- Witness for C5 at a concrete input: a 304 response against the sample
remote state. -/
theorem C5_witness :
    fetch_calendar_and_update okLib
        (some { status_code := 304, etagHeader := Option.none, text := "" }) true
        sampleRemoteState =
      (sampleRemoteState, .notModified) ∧
    FetchOutcome.notModified.isError = false :=
  C5_not_modified_no_mutation okLib
    { status_code := 304, etagHeader := Option.none, text := "" } true
    sampleRemoteState rfl

/-- C6: a response that is neither 2xx nor 304 makes `raise_for_status`
raise before any state assignment: the outcome is an error and the entity
state — including the in-memory aggregate, which keeps serving queries —
is exactly the prior state. -/
theorem C6_http_error_keeps_aggregate (lib : IcalLib) (res : FetchResponse)
    (store_ok : Bool) (s : RemoteEntityState) (h304 : res.status_code ≠ 304)
    (h2xx : ¬(200 ≤ res.status_code ∧ res.status_code < 300)) :
    fetch_calendar_and_update lib (some res) store_ok s = (s, .httpStatusError) ∧
    FetchOutcome.httpStatusError.isError = true := by
  constructor
  · simp [fetch_calendar_and_update, h304, h2xx]
  · rfl

/-- Witness for C6 at a concrete input: a 500 response against the sample
remote state. -/
theorem C6_witness :
    fetch_calendar_and_update okLib
        (some { status_code := 500, etagHeader := Option.none, text := "" }) true
        sampleRemoteState =
      (sampleRemoteState, .httpStatusError) ∧
    FetchOutcome.httpStatusError.isError = true :=
  C6_http_error_keeps_aggregate okLib
    { status_code := 500, etagHeader := Option.none, text := "" } true
    sampleRemoteState (by decide) (by decide)

/-- C2 fails on the code: `_fetch_calendar_and_update` assigns
`self._etag` before parsing and `self._calendar` before persisting.  At a
200 response carrying ETag `etag-2` whose body fails to parse, the
refresh raises (`parseError`) yet the stored ETag is overwritten with
`etag-2`, which no successfully applied refresh produced; and at a run
whose persistence step fails (`storeError`), the in-memory aggregate has
already been replaced. -/
theorem C2_refresh_not_atomic :
    (fetch_calendar_and_update failingStoreLib (some sampleOkResponse) true
        sampleRemoteState =
      ({ sampleRemoteState with etag := some "etag-2" }, .parseError) ∧
      sampleRemoteState.etag ≠ some "etag-2") ∧
    ((fetch_calendar_and_update okLib (some sampleOkResponse) false
        sampleRemoteState).2 = .storeError ∧
      (fetch_calendar_and_update okLib (some sampleOkResponse) false
        sampleRemoteState).1.calendar ≠ sampleRemoteState.calendar ∧
      (fetch_calendar_and_update okLib (some sampleOkResponse) false
        sampleRemoteState).1.persisted = sampleRemoteState.persisted) := by
  refine ⟨⟨?_, by decide⟩, ?_, ?_, ?_⟩ <;> decide

/-- C8: `_parse_event` stores any timezone-aware `start`/`end` datetime as
a naive floating local datetime (`dt_util.as_local(value).replace(tzinfo=None)`),
while date values and already-naive datetimes pass through to the
constructed `Event` unchanged. -/
theorem C8_floating_local_storage (offset : Int) (d : EventDict) (ev : IcalEvent)
    (hok : parse_event offset d = .ok ev) :
    (∀ i, d.dtstart = .dtAware i → ev.dtstart = .dtNaive (i + offset)) ∧
    (∀ i, d.dtend = .dtAware i → ev.dtend = .dtNaive (i + offset)) ∧
    (∀ w, d.dtstart = .dtNaive w → ev.dtstart = .dtNaive w) ∧
    (∀ w, d.dtend = .dtNaive w → ev.dtend = .dtNaive w) ∧
    (∀ dd, d.dtstart = .date dd → ev.dtstart = .date dd) ∧
    (∀ dd, d.dtend = .date dd → ev.dtend = .date dd) := by
  rcases d with ⟨sum, ds, de, rr⟩
  cases ds <;> cases de <;>
    simp [parse_event, coerce_floating, event_from_dict] at hok <;>
    subst hok <;> simp

/-- A concrete create/update input whose start is timezone-aware (instant
100) and whose end is a naive datetime (wall 50). -/
def sampleAwareDict : EventDict :=
  { summary := "a", dtstart := .dtAware 100, dtend := .dtNaive 50 }

/-- The `Event` that `_parse_event` builds from `sampleAwareDict` at a
60-minute zone offset. -/
def sampleParsedEvent : IcalEvent :=
  { summary := "a", dtstart := .dtNaive 160, dtend := .dtNaive 50 }

/-- Witness for C8 at a concrete input: the aware start instant 100 is
stored as the naive local wall time 100 + 60. -/
theorem C8_witness : sampleParsedEvent.dtstart = .dtNaive (100 + 60) :=
  (C8_floating_local_storage 60 sampleAwareDict sampleParsedEvent rfl).1 100 rfl

/-- C9: local setup stamps `PRODID` on the parsed aggregate, every
successful remote refresh stamps `PRODID` on the freshly parsed aggregate
(so every later serialisation carries it), and no mutation operation
changes the aggregate's product identifier. -/
theorem C9_prodid_invariant (lib : IcalLib) :
    (∀ ics cal, setup_local_calendar lib ics = .ok cal → cal.prodid = PRODID) ∧
    (∀ response store_ok s s1,
        fetch_calendar_and_update lib response store_ok s = (s1, .success) →
        ∃ c, s1.calendar = some c ∧ c.prodid = PRODID) ∧
    (∀ offset kwargs s,
        (async_create_event lib offset kwargs s).1.calendar.prodid =
          s.calendar.prodid) ∧
    (∀ tfs uid rid rrange s,
        (async_delete_event lib tfs uid rid rrange s).1.calendar.prodid =
          s.calendar.prodid) ∧
    (∀ offset tfs uid ed rid rrange s,
        (async_update_event lib offset tfs uid ed rid rrange s).1.calendar.prodid =
          s.calendar.prodid) := by
  refine ⟨?_, ?_, ?_, ?_, ?_⟩
  · intro ics cal h
    rcases hp : lib.calendar_from_ics ics with e | cal0 <;>
      simp [setup_local_calendar, hp] at h
    simp [← h]
  · intro response store_ok s s1 h
    match response with
    | Option.none => simp [fetch_calendar_and_update] at h
    | some res =>
      by_cases h304 : res.status_code = 304
      · simp [fetch_calendar_and_update, h304] at h
      · by_cases h2xx : 200 ≤ res.status_code ∧ res.status_code < 300
        · rcases hp : lib.calendar_from_ics res.text with e | cal0
          · simp [fetch_calendar_and_update, h304, h2xx, hp] at h
          · cases store_ok
            · simp [fetch_calendar_and_update, h304, h2xx, hp] at h
            · simp [fetch_calendar_and_update, h304, h2xx, hp] at h
              exact ⟨_, by rw [← h], rfl⟩
        · simp [fetch_calendar_and_update, h304, h2xx] at h
  · intro offset kwargs s
    rcases hp : parse_event offset kwargs with e | ev
    · simp [async_create_event, hp]
    · rcases ha : lib.store_add s.calendar.events ev with e | evs <;>
        simp [async_create_event, async_store_step, hp, ha]
  · intro tfs uid rid rrange s
    rcases hd : lib.store_delete s.calendar.events uid rid
        (range_from_arg tfs rrange) with e | evs <;>
      simp [async_delete_event, async_store_step, hd]
  · intro offset tfs uid ed rid rrange s
    rcases hp : parse_event offset ed with e | nev
    · simp [async_update_event, hp]
    · rcases he : lib.store_edit s.calendar.events uid nev rid
          (range_from_arg tfs rrange) with e | evs <;>
        simp [async_update_event, async_store_step, hp, he]

/-- Witness for C9 at a concrete input: a successful remote refresh
against `okLib` leaves an aggregate stamped with `PRODID`. -/
theorem C9_witness :
    ∃ c, ({ etag := some "etag-2",
            calendar := some { prodid := PRODID, events := [] },
            persisted := some (okLib.calendar_to_ics { prodid := PRODID, events := [] }) } :
          RemoteEntityState).calendar = some c ∧ c.prodid = PRODID :=
  (C9_prodid_invariant okLib).2.1 (some sampleOkResponse) true sampleRemoteState
    { etag := some "etag-2",
      calendar := some { prodid := PRODID, events := [] },
      persisted := some (okLib.calendar_to_ics { prodid := PRODID, events := [] }) }
    rfl

end LocalCalendar
